import Mathlib

/-!
Verification of the ClinicalTrials.gov tool (`clinicaltrails.py`).

The file shallowly embeds the pure logic of the script:

* a `DataFrame` is the pair (column labels, data rows) that
  `pd.DataFrame.from_records(records[1:], columns=records[0])` builds from a
  decoded CSV payload;
* pandas' `DataFrame.to_string` is an external library routine, so the
  formatter takes the rendering function `render : DataFrame → String` as a
  parameter and theorems quantify over it;
* the network layer (`requests.get` inside `csv_handler`) is modelled as a
  parameter `fetch : String → Except String (List (List String))`: `.ok`
  carries the list of decoded CSV records, `.error` carries the text of the
  exception raised by the fetch;
* Python exceptions caught by the `except Exception` blocks become the
  `.error` branch of that parameter (plus the one internal exception source,
  the `KeyError` raised by `df["NCT Number"]` when that column is absent);
* machine integers are modelled as `Int` (Python ints are unbounded, so no
  wrap-around is involved).
-/

set_option maxRecDepth 40000

/-- A decoded tabular payload: `columns` is the CSV header row, `rows` the
data rows, mirroring `pd.DataFrame.from_records(data[1:], columns=data[0])`. -/
structure DataFrame where
  columns : List String
  rows : List (List String)
deriving DecidableEq

/-- `df.head(n)` of pandas: for `0 ≤ n` the first `n` rows, for negative `n`
all rows but the last `-n` (clamped at zero). -/
def DataFrame.head (d : DataFrame) (n : Int) : DataFrame :=
  ⟨d.columns, if 0 ≤ n then d.rows.take n.toNat
   else d.rows.take (d.rows.length - (-n).toNat)⟩

/-- `row.get(name, dflt)` on a pandas row labelled by `cols`: the cell under
the first column named `name`, or `dflt` when no column has that name. -/
def cellGet (cols : List String) (row : List String) (name : String)
    (dflt : String) : String :=
  match cols.indexOf? name with
  | none => dflt
  | some i => row.getD i dflt

/-- The column `df[name]` as a list of cell values (callers guard that
`name ∈ df.columns`, as pandas raises `KeyError` otherwise). -/
def colCells (d : DataFrame) (name : String) : List String :=
  d.rows.map (fun r => cellGet d.columns r name "")

/-- The trailing metadata line of `format_limited_output`:
`f"\n\nData summary: Total {total_rows} records, showing {rows_shown} records."` -/
def data_summary (total : Nat) (shown : Int) : String :=
  "\n\nData summary: Total " ++ toString total ++ " records, showing "
    ++ toString shown ++ " records."

/-- `format_limited_output(df, max_rows)`.  `df is None or df.empty` yields
the sentinel; then Python's truthiness test `if max_rows and max_rows <
total_rows` truncates with `df.head(max_rows)` only when `max_rows` is
neither `None` nor `0` and is `< total_rows`.  `render` stands for
`DataFrame.to_string`. -/
def format_limited_output (render : DataFrame → String) (df : Option DataFrame)
    (max_rows : Option Int) : String :=
  match df with
  | none => "No data available"
  | some d =>
    if d.rows = [] then "No data available"
    else
      match max_rows with
      | some m =>
        if m ≠ 0 ∧ m < (d.rows.length : Int) then
          render (d.head m) ++ data_summary d.rows.length m
        else
          render d ++ data_summary d.rows.length (d.rows.length : Int)
      | none => render d ++ data_summary d.rows.length (d.rows.length : Int)

/-- The rows of the embedded `_STUDY_FIELDS_CSV_CONTENT` table, as
`csv.DictReader` decodes them: one `(Column Name, Included Data Fields)` pair
per data line of the embedded CSV (the content uses no quoting or escaping,
so each line splits at its single separating comma). -/
def _STUDY_FIELDS_ROWS : List (String × String) :=
  [("NCT Number", "NCTId"),
   ("Study Title", "BriefTitle"),
   ("Study URL", "NCTId"),
   ("Acronym", "Acronym"),
   ("Study Status", "OverallStatus"),
   ("Brief Summary", "BriefSummary"),
   ("Study Results", "HasResults"),
   ("Conditions", "Condition"),
   ("Interventions", "InterventionType|InterventionName"),
   ("Primary Outcome Measures", "PrimaryOutcomeMeasure|PrimaryOutcomeDescription|PrimaryOutcomeTimeFrame"),
   ("Secondary Outcome Measures", "SecondaryOutcomeMeasure|SecondaryOutcomeDescription|SecondaryOutcomeTimeFrame"),
   ("Other Outcome Measures", "OtherOutcomeMeasure|OtherOutcomeDescription|OtherOutcomeTimeFrame"),
   ("Sponsor", "LeadSponsorName"),
   ("Collaborators", "CollaboratorName"),
   ("Sex", "Sex"),
   ("Age", "MinimumAge|MaximumAge|StdAge"),
   ("Phases", "Phase"),
   ("Enrollment", "EnrollmentCount"),
   ("Funder Type", "LeadSponsorClass"),
   ("Study Type", "StudyType"),
   ("Study Design", "DesignAllocation|DesignInterventionModel|DesignMasking|DesignWhoMasked|DesignPrimaryPurpose"),
   ("Other IDs", "OrgStudyId|SecondaryId"),
   ("Start Date", "StartDate"),
   ("Primary Completion Date", "PrimaryCompletionDate"),
   ("Completion Date", "CompletionDate"),
   ("First Posted", "StudyFirstPostDate"),
   ("Results First Posted", "ResultsFirstSubmitDate"),
   ("Last Update Posted", "LastUpdatePostDate"),
   ("Locations", "LocationFacility|LocationCity|LocationState|LocationZip|LocationCountry"),
   ("Study Documents", "NCTId|LargeDocLabel|LargeDocFilename")]

/-- `_valid_csv_column_names`: the module-level list built at import time by
iterating the `DictReader` rows and appending `row["Column Name"].strip()`
(the embedded content has no surrounding whitespace, so `strip` is the
identity on every entry). -/
def _valid_csv_column_names : List String :=
  _STUDY_FIELDS_ROWS.map (fun row => row.1)

/-- API constant `_BASE_URL`. -/
def _BASE_URL : String := "https://clinicaltrials.gov/api/v2/"

/-- API constant `_CSV` (the `format_param` both operations use). -/
def _CSV : String := "format=csv"

/-- The URL `search_clinical_trials_by_NCT` builds:
`f"{_BASE_URL}studies?{format_param}&markupFormat=markdown&query.term={nct_ID}&pageSize={max_studies}"`
with `format_param = _CSV` and `max_studies = 1`. -/
def nct_url (nct_ID : String) : String :=
  _BASE_URL ++ "studies?" ++ _CSV ++ "&markupFormat=markdown&query.term="
    ++ nct_ID ++ "&pageSize=1"

/-- The not-found message of the by-identifier flow (decode succeeded, table
nonempty, but no row's `"NCT Number"` cell equals the requested ID). -/
def nct_not_found (nct_ID : String) : String :=
  "Study with NCT ID " ++ nct_ID
    ++ " not found in ClinicalTrials.gov API response."

/-- The message of the `except Exception` block of the by-identifier flow:
`f"Error fetching study details for NCT ID {nct_ID}: {str(e)}"`. -/
def nct_error (nct_ID e : String) : String :=
  "Error fetching study details for NCT ID " ++ nct_ID ++ ": " ++ e

/-- The first row of `df` whose `"NCT Number"` cell equals `nct_ID`:
`df[df["NCT Number"] == nct_ID].iloc[0]`. -/
def nct_selected_row (d : DataFrame) (nct_ID : String) : Option (List String) :=
  d.rows.find? (fun r => cellGet d.columns r "NCT Number" "" == nct_ID)

/-- `search_clinical_trials_by_NCT(nct_ID)`.  `fetch` models
`csv_handler(url)`: `.ok records` is the decoded CSV record list, `.error e`
an exception whose text is `e`, which the `except Exception` block converts
to `nct_error`.  pandas' `df.empty` is true when either axis has length
zero, so the `df.empty or ...` short-circuit covers both no data rows and a
zero-column frame (empty header line); only past it, when a nonempty header
lacks `"NCT Number"`, does `df["NCT Number"]` raise
`KeyError('NCT Number')`, whose `str` is `"'NCT Number'"` — that path lands
in the same `except` block.  The selected row's title/summary/URL extraction
(with fallback defaults) feeds only the local `citation_list`, which the
returned string does not use, so the success branch returns
`format_limited_output(df)` of the full table. -/
def search_clinical_trials_by_NCT (render : DataFrame → String)
    (nct_ID : String)
    (fetch : String → Except String (List (List String))) : String :=
  match fetch (nct_url nct_ID) with
  | Except.error e => nct_error nct_ID e
  | Except.ok study_data_from_api =>
    if study_data_from_api.length > 1 then
      let df : DataFrame :=
        ⟨study_data_from_api.headD [], study_data_from_api.tail⟩
      if df.rows = [] ∨ df.columns = [] then nct_not_found nct_ID
      else if "NCT Number" ∈ df.columns then
        if (colCells df "NCT Number").any (fun v => v == nct_ID) then
          format_limited_output render (some df) none
        else nct_not_found nct_ID
      else nct_error nct_ID "'NCT Number'"
    else
      "Study with NCT ID " ++ nct_ID ++ " not found in API response structure."

/-- The hardcoded `requested_csv_fields` list of the by-keyword flow. -/
def requested_csv_fields : List String :=
  ["NCT Number", "Conditions", "Study Title", "Brief Summary", "Study URL",
   "Study Status", "Phases", "Start Date", "Sponsor", "Enrollment",
   "Study Type"]

/-- `concat_api_fields = "|".join(requested_csv_fields)` — note that the
joined strings are the human-readable column display names. -/
def concat_api_fields : String :=
  String.intercalate "|" requested_csv_fields

/-- The pipe-join of the underlying field identifiers (the `Included Data
Fields` entries of the embedded table) for the requested field list — what
the spec's wording describes, for comparison with `concat_api_fields`. -/
def requested_field_identifiers : List String :=
  requested_csv_fields.map (fun f =>
    (((_STUDY_FIELDS_ROWS.find? (fun row => row.1 == f)).map
      (fun row => row.2)).getD ""))

/-- The bound-validation error of the by-keyword flow:
`f"Error: The number of studies can only be between 1 and 1000. (Requested: {max_studies})"`. -/
def keyword_bound_error (max_studies : Int) : String :=
  "Error: The number of studies can only be between 1 and 1000. (Requested: "
    ++ toString max_studies ++ ")"

/-- The invalid-fields error of the by-keyword flow, listing the requested
fields absent from `_valid_csv_column_names` and the full valid set. -/
def keyword_fields_error : String :=
  "Error: One or more requested fields are not valid! Invalid fields: "
    ++ String.intercalate ", "
        (requested_csv_fields.filter
          (fun f => !(_valid_csv_column_names.contains f)))
    ++ ". Valid fields are: "
    ++ String.intercalate ", " _valid_csv_column_names

/-- The URL of the by-keyword flow: `f"{_BASE_URL}studies?{format_param}"`
followed by
`f"&query.term={keyword}&markupFormat=markdown&fields={concat_api_fields}&pageSize={max_studies}"`. -/
def keyword_url (keyword : String) (max_studies : Int) : String :=
  _BASE_URL ++ "studies?" ++ _CSV ++ "&query.term=" ++ keyword
    ++ "&markupFormat=markdown&fields=" ++ concat_api_fields
    ++ "&pageSize=" ++ toString max_studies

/-- The pre-network phase of `search_clinical_trials_by_keyword`: the two
validations that run before any request.  `.error msg` is an early return
carrying `msg` — no URL is built and `csv_handler` is never invoked;
`.ok url` hands the constructed URL to the fetch phase. -/
def search_by_keyword_pre (keyword : String) (max_studies : Int) :
    Except String String :=
  if max_studies > 1000 ∨ max_studies < 1 then
    Except.error (keyword_bound_error max_studies)
  else if !(requested_csv_fields.all
      (fun f => _valid_csv_column_names.contains f)) then
    Except.error keyword_fields_error
  else
    Except.ok (keyword_url keyword max_studies)

/-- The message of the `except Exception` block of the by-keyword flow:
`f"Error searching studies by keyword '{keyword}': {str(e)}"`. -/
def keyword_error (keyword e : String) : String :=
  "Error searching studies by keyword '" ++ keyword ++ "': " ++ e

/-- The post-fetch phase of `search_clinical_trials_by_keyword`: decoding
outcomes to result strings.  pandas' `df.empty` at this guard is true when
either axis has length zero (no data rows, or a zero-column frame from an
empty header line).  The per-row extraction loop only fills the local
`citation_list`, unused by the returned string, so the success branch is
`format_limited_output(df)` of the full table. -/
def search_by_keyword_post (render : DataFrame → String) (keyword : String)
    (fetched : Except String (List (List String))) : String :=
  match fetched with
  | Except.error e => keyword_error keyword e
  | Except.ok results_from_api =>
    if results_from_api.length > 1 then
      let df : DataFrame := ⟨results_from_api.headD [], results_from_api.tail⟩
      if df.rows = [] ∨ df.columns = [] then
        "No studies found for keyword: " ++ keyword ++ "."
      else format_limited_output render (some df) none
    else
      "No studies found for keyword: " ++ keyword
        ++ ". The API returned no data or an unexpected structure."

/-- `search_clinical_trials_by_keyword(keyword, max_studies)`: validate,
then fetch the constructed URL and decode.  An `.error` from
`search_by_keyword_pre` is returned as-is without ever calling `fetch`. -/
def search_clinical_trials_by_keyword (render : DataFrame → String)
    (keyword : String) (max_studies : Int)
    (fetch : String → Except String (List (List String))) : String :=
  match search_by_keyword_pre keyword max_studies with
  | Except.error msg => msg
  | Except.ok url => search_by_keyword_post render keyword (fetch url)

/-- A fetch that always returns `r`, for concrete instantiations. -/
def constFetch (r : Except String (List (List String))) :
    String → Except String (List (List String)) :=
  fun _ => r

/-- A concrete rendering function (row count) standing in for
`DataFrame.to_string` in concrete instantiations. -/
def renderLen : DataFrame → String :=
  fun d => toString d.rows.length

/-- C1: for every `max_studies` outside `[1, 1000]`, the by-keyword operation
returns the bound-validation error string naming the requested value, before
any network request: the pre-network phase already yields that error, the
full operation's result is independent of the fetch function, and the
message is the literal template with the requested value interpolated. -/
theorem C1_bound_validation (keyword : String) (max_studies : Int)
    (h : max_studies < 1 ∨ max_studies > 1000) :
    search_by_keyword_pre keyword max_studies =
        Except.error (keyword_bound_error max_studies)
    ∧ (∀ (render : DataFrame → String)
        (fetch : String → Except String (List (List String))),
        search_clinical_trials_by_keyword render keyword max_studies fetch =
          keyword_bound_error max_studies)
    ∧ keyword_bound_error max_studies =
        "Error: The number of studies can only be between 1 and 1000. (Requested: "
          ++ toString max_studies ++ ")" := by
  have hc : max_studies > 1000 ∨ max_studies < 1 := h.symm
  refine ⟨?_, ?_, rfl⟩
  · unfold search_by_keyword_pre
    rw [if_pos hc]
  · intro render fetch
    unfold search_clinical_trials_by_keyword search_by_keyword_pre
    rw [if_pos hc]

/-- C1 witness: `max_studies = 1001` is rejected with the validation string
and the result ignores the fetch function. -/
theorem C1_bound_validation_witness :
    search_by_keyword_pre "cancer" 1001 =
        Except.error (keyword_bound_error 1001)
    ∧ search_clinical_trials_by_keyword renderLen "cancer" 1001
        (constFetch (Except.error "boom")) = keyword_bound_error 1001 :=
  ⟨(C1_bound_validation "cancer" 1001 (by decide)).1,
   (C1_bound_validation "cancer" 1001 (by decide)).2.1 renderLen
     (constFetch (Except.error "boom"))⟩

/-- C3 counterexample: the claim quantifies over every `maxRows < T`, but at
`maxRows = 0` (with one record, so `0 < T`) Python's truthiness test skips
truncation: the code shows all records with `showing 1`, not the first zero
records with `showing 0`. -/
theorem C3_counterexample :
    format_limited_output renderLen (some ⟨["A"], [["x"]]⟩) (some 0) ≠
      renderLen ⟨["A"], []⟩ ++ data_summary 1 0 := by decide

/-- C3 amended: for every `maxRows` with `1 ≤ maxRows < T`, the formatter
returns the rendering of exactly the first `maxRows` records in original
order, followed by the exact summary suffix with total `T` and shown
`maxRows`. -/
theorem C3_truncation (render : DataFrame → String) (d : DataFrame) (m : Int)
    (h1 : 1 ≤ m) (h2 : m < (d.rows.length : Int)) :
    format_limited_output render (some d) (some m) =
      render ⟨d.columns, d.rows.take m.toNat⟩
        ++ data_summary d.rows.length m := by
  have hne : d.rows ≠ [] := by
    intro hr
    rw [hr] at h2
    simp at h2
    omega
  have hc : m ≠ 0 ∧ m < (d.rows.length : Int) := ⟨by omega, h2⟩
  unfold format_limited_output DataFrame.head
  simp [hne, hc, (by omega : (0 : Int) ≤ m)]

/-- C3 witness: two records with `maxRows = 1` yield the rendering of the
first record followed by `Total 2 records, showing 1 records`. -/
theorem C3_truncation_witness :
    format_limited_output renderLen (some ⟨["A"], [["x"], ["y"]]⟩) (some 1) =
      renderLen ⟨["A"], [["x"]]⟩ ++ data_summary 2 1 :=
  C3_truncation renderLen ⟨["A"], [["x"], ["y"]]⟩ 1 (by decide) (by decide)

/-- C4: formatting a table of `N` records with `maxRows = N` and with
`maxRows` unset (`None`) produce identical output: `N < N` fails, so both
take the untruncated branch. -/
theorem C4_total_roundtrip (render : DataFrame → String) (d : DataFrame) :
    format_limited_output render (some d) (some (d.rows.length : Int)) =
      format_limited_output render (some d) none := by
  unfold format_limited_output
  by_cases h : d.rows = []
  · simp [h]
  · have hc : ¬ ((d.rows.length : Int) ≠ 0
        ∧ (d.rows.length : Int) < (d.rows.length : Int)) := by omega
    simp [h, hc]

/-- C10: on a non-empty table, `maxRows = 0` is falsy in Python's
`if max_rows and max_rows < total_rows`, so the formatter shows all records
exactly as when `maxRows` is unset. -/
theorem C10_zero_shows_all (render : DataFrame → String) (d : DataFrame)
    (h : d.rows ≠ []) :
    format_limited_output render (some d) (some 0) =
      format_limited_output render (some d) none := by
  have hc : ¬ ((0 : Int) ≠ 0 ∧ (0 : Int) < (d.rows.length : Int)) := by omega
  unfold format_limited_output
  simp [hc]

/-- C10 witness: a one-record table formatted with `maxRows = 0` equals the
`maxRows = None` output. -/
theorem C10_zero_shows_all_witness :
    format_limited_output renderLen (some ⟨["A"], [["x"]]⟩) (some 0) =
      format_limited_output renderLen (some ⟨["A"], [["x"]]⟩) none :=
  C10_zero_shows_all renderLen ⟨["A"], [["x"]]⟩ (by decide)

/-- C8: the hardcoded `requested_csv_fields` list is a subset of the
registry's valid display names, so the invalid-fields rejection branch of
the by-keyword validation is unreachable: for every invocation the
pre-network phase either rejects the bound or accepts, never returning
`keyword_fields_error`. -/
theorem C8_fields_check_unreachable (keyword : String) (max_studies : Int) :
    (requested_csv_fields.all
      (fun f => _valid_csv_column_names.contains f)) = true
    ∧ search_by_keyword_pre keyword max_studies =
        (if max_studies > 1000 ∨ max_studies < 1 then
          Except.error (keyword_bound_error max_studies)
        else Except.ok (keyword_url keyword max_studies)) := by
  have hall : (requested_csv_fields.all
      (fun f => _valid_csv_column_names.contains f)) = true := by decide
  refine ⟨hall, ?_⟩
  unfold search_by_keyword_pre
  by_cases h : max_studies > 1000 ∨ max_studies < 1
  · rw [if_pos h, if_pos h]
  · rw [if_neg h, if_neg h, hall]
    simp

/-- C9 counterexample: the embedded configuration table has 30 rows, not
the 29 the claim states. -/
theorem C9_counterexample :
    _STUDY_FIELDS_ROWS.length = 30 ∧ _STUDY_FIELDS_ROWS.length ≠ 29 := by
  decide

/-- C9 amended: the embedded configuration table maps exactly 30 display
names to field-identifier lists, the display names are pairwise distinct,
and the set of valid display names is exactly the fixed table's first
components (a compile-time constant, hence never mutated). -/
theorem C9_registry_shape :
    _STUDY_FIELDS_ROWS.length = 30
    ∧ (_STUDY_FIELDS_ROWS.map (fun row => row.1)).Nodup
    ∧ _valid_csv_column_names = _STUDY_FIELDS_ROWS.map (fun row => row.1) :=
  ⟨by decide, by decide, rfl⟩

/-- C6 counterexample: the `fields` query parameter joins the human-readable
display names, not the underlying field identifiers: `concat_api_fields` is
the display-name join, which differs from the identifier join the claim
describes, and the constructed URL embeds `concat_api_fields`. -/
theorem C6_counterexample :
    concat_api_fields =
      "NCT Number|Conditions|Study Title|Brief Summary|Study URL|Study Status|Phases|Start Date|Sponsor|Enrollment|Study Type"
    ∧ String.intercalate "|" requested_field_identifiers =
      "NCTId|Condition|BriefTitle|BriefSummary|NCTId|OverallStatus|Phase|StartDate|LeadSponsorName|EnrollmentCount|StudyType"
    ∧ concat_api_fields ≠ String.intercalate "|" requested_field_identifiers
    ∧ keyword_url "cancer" 20 =
        _BASE_URL ++ "studies?" ++ _CSV
          ++ "&query.term=cancer&markupFormat=markdown&fields="
          ++ concat_api_fields ++ "&pageSize=20" :=
  ⟨by decide, by decide, by decide, by decide⟩

/-- C6 amended: the constructed URL's `fields` query parameter is the
pipe-join of the requested field list's display names — each a valid
registry display name, and distinct as a join from the pipe-join of the
corresponding underlying field identifiers. -/
theorem C6_fields_are_display_names (keyword : String) (max_studies : Int) :
    keyword_url keyword max_studies =
      _BASE_URL ++ "studies?" ++ _CSV ++ "&query.term=" ++ keyword
        ++ "&markupFormat=markdown&fields="
        ++ String.intercalate "|" requested_csv_fields
        ++ "&pageSize=" ++ toString max_studies
    ∧ (∀ f ∈ requested_csv_fields, f ∈ _valid_csv_column_names)
    ∧ String.intercalate "|" requested_csv_fields ≠
        String.intercalate "|" requested_field_identifiers :=
  ⟨rfl, by decide, by decide⟩

/-- C7: a successful decode with at least one data row, a well-formed header
containing the `"NCT Number"` column (labels pairwise distinct, rows as wide
as the header, as in an actual API payload), and no data row whose
`"NCT Number"` cell equals `"NCT00000000"` makes the by-identifier operation
return exactly the not-found message for `"NCT00000000"`. -/
theorem C7_not_found_message (render : DataFrame → String) (hdr : List String)
    (rows : List (List String)) (hne : rows ≠ []) (hnodup : hdr.Nodup)
    (hcol : "NCT Number" ∈ hdr)
    (hrect : ∀ r ∈ rows, r.length = hdr.length)
    (hnomatch : ∀ r ∈ rows, cellGet hdr r "NCT Number" "" ≠ "NCT00000000") :
    search_clinical_trials_by_NCT render "NCT00000000"
        (constFetch (Except.ok (hdr :: rows))) =
      "Study with NCT ID NCT00000000 not found in ClinicalTrials.gov API response." := by
  have h0 : 0 < rows.length := List.length_pos.mpr hne
  have hany : ((colCells ⟨hdr, rows⟩ "NCT Number").any
      (fun v => v == "NCT00000000")) = false := by
    rw [List.any_eq_false]
    intro v hv
    obtain ⟨r, hr, rfl⟩ := List.mem_map.mp hv
    simpa using hnomatch r hr
  unfold search_clinical_trials_by_NCT constFetch
  simp only [List.headD_cons, List.tail_cons, List.length_cons]
  rw [if_pos (by omega : rows.length + 1 > 1),
    if_neg (not_or.mpr ⟨hne, List.ne_nil_of_mem hcol⟩), if_pos hcol,
    if_neg (by rw [hany]; exact Bool.false_ne_true)]
  rfl

/-- C7 witness: one decoded data row carrying a different identifier yields
the literal not-found message. -/
theorem C7_not_found_message_witness :
    search_clinical_trials_by_NCT renderLen "NCT00000000"
        (constFetch (Except.ok [["NCT Number"], ["NCT11111111"]])) =
      "Study with NCT ID NCT00000000 not found in ClinicalTrials.gov API response." :=
  C7_not_found_message renderLen ["NCT Number"] [["NCT11111111"]] (by decide)
    (by decide) (by decide) (by decide) (by decide)

/-- C5 counterexample: with a decode of two data rows where only the second
matches, the selected row is that matching row, yet the operation's result
is the formatted two-row table, not the formatted one-row table of the
selected row. -/
theorem C5_counterexample :
    nct_selected_row ⟨["NCT Number"], [["NCT22222222"], ["NCT11111111"]]⟩
        "NCT11111111" = some ["NCT11111111"]
    ∧ search_clinical_trials_by_NCT renderLen "NCT11111111"
        (constFetch
          (Except.ok [["NCT Number"], ["NCT22222222"], ["NCT11111111"]])) ≠
      format_limited_output renderLen
        (some ⟨["NCT Number"], [["NCT11111111"]]⟩) none :=
  ⟨by decide, by decide⟩

/-- C5 amended: when the decoded payload (well-formed header containing
`"NCT Number"`, rows as wide as the header) has a data row whose
`"NCT Number"` cell equals the requested ID, the operation returns the
formatted table of all decoded data rows; in the specific case of exactly
one data row, this is precisely the formatted one-row table of the selected
(first matching) row. -/
theorem C5_formats_full_table (render : DataFrame → String)
    (hdr : List String) (rows : List (List String)) (nct_ID : String)
    (hne : rows ≠ []) (hnodup : hdr.Nodup) (hcol : "NCT Number" ∈ hdr)
    (hrect : ∀ r ∈ rows, r.length = hdr.length)
    (hmatch : ((colCells ⟨hdr, rows⟩ "NCT Number").any
      (fun v => v == nct_ID)) = true) :
    search_clinical_trials_by_NCT render nct_ID
        (constFetch (Except.ok (hdr :: rows))) =
      format_limited_output render (some ⟨hdr, rows⟩) none
    ∧ (∀ r, rows = [r] →
        nct_selected_row ⟨hdr, rows⟩ nct_ID = some r
        ∧ search_clinical_trials_by_NCT render nct_ID
            (constFetch (Except.ok (hdr :: rows))) =
          format_limited_output render (some ⟨hdr, [r]⟩) none) := by
  have h0 : 0 < rows.length := List.length_pos.mpr hne
  have hmain : search_clinical_trials_by_NCT render nct_ID
      (constFetch (Except.ok (hdr :: rows))) =
      format_limited_output render (some ⟨hdr, rows⟩) none := by
    unfold search_clinical_trials_by_NCT constFetch
    simp only [List.headD_cons, List.tail_cons, List.length_cons]
    rw [if_pos (by omega : rows.length + 1 > 1),
      if_neg (not_or.mpr ⟨hne, List.ne_nil_of_mem hcol⟩), if_pos hcol,
      if_pos hmatch]
  refine ⟨hmain, ?_⟩
  intro r hrows1
  subst hrows1
  have hcell : (cellGet hdr r "NCT Number" "" == nct_ID) = true := by
    simpa [colCells] using hmatch
  constructor
  · unfold nct_selected_row
    rw [List.find?_cons, hcell]
  · exact hmain

/-- C5 witness: a one-row decode whose row matches yields exactly the
formatted one-row table of that (selected) row. -/
theorem C5_formats_full_table_witness :
    search_clinical_trials_by_NCT renderLen "NCT11111111"
        (constFetch (Except.ok [["NCT Number"], ["NCT11111111"]])) =
      format_limited_output renderLen
        (some ⟨["NCT Number"], [["NCT11111111"]]⟩) none
    ∧ nct_selected_row ⟨["NCT Number"], [["NCT11111111"]]⟩ "NCT11111111" =
        some ["NCT11111111"] :=
  ⟨(C5_formats_full_table renderLen ["NCT Number"] [["NCT11111111"]]
      "NCT11111111" (by decide) (by decide) (by decide) (by decide)
      (by decide)).1,
   ((C5_formats_full_table renderLen ["NCT Number"] [["NCT11111111"]]
      "NCT11111111" (by decide) (by decide) (by decide) (by decide)
      (by decide)).2 ["NCT11111111"] rfl).1⟩

/-- C2: every exception of the embedding is caught at the operation boundary
and converted to an error string carrying the original identifier
(respectively keyword) and the exception text; total Lean functions of
return type `String` embed the claim that no fault propagates.  The three
conjuncts cover: a fetch exception in the by-identifier flow, a fetch
exception in the by-keyword flow (with a bound that passes validation, so
the fetch is actually issued), and the one internal exception source,
`KeyError('NCT Number')` raised while building the column filter on a decode
whose nonempty header lacks that column (a nonempty header is required:
with an empty header the frame has zero columns, `df.empty` is true and the
line-177 short-circuit returns the not-found message before `df["NCT
Number"]` is ever evaluated, so no exception arises there). -/
theorem C2_exception_boundary (render : DataFrame → String)
    (nct_ID keyword e : String) (max_studies : Int)
    (fetchN fetchK fetchM : String → Except String (List (List String)))
    (hN : fetchN (nct_url nct_ID) = Except.error e)
    (hms1 : 1 ≤ max_studies) (hms2 : max_studies ≤ 1000)
    (hK : fetchK (keyword_url keyword max_studies) = Except.error e)
    (hdr : List String) (rows : List (List String))
    (hM : fetchM (nct_url nct_ID) = Except.ok (hdr :: rows))
    (hrows : rows ≠ []) (hhdr : hdr ≠ [])
    (hrect : ∀ r ∈ rows, r.length = hdr.length)
    (hcolM : "NCT Number" ∉ hdr) :
    search_clinical_trials_by_NCT render nct_ID fetchN =
        "Error fetching study details for NCT ID " ++ nct_ID ++ ": " ++ e
    ∧ search_clinical_trials_by_keyword render keyword max_studies fetchK =
        "Error searching studies by keyword '" ++ keyword ++ "': " ++ e
    ∧ search_clinical_trials_by_NCT render nct_ID fetchM =
        "Error fetching study details for NCT ID " ++ nct_ID ++ ": "
          ++ "'NCT Number'" := by
  have h0 : 0 < rows.length := List.length_pos.mpr hrows
  refine ⟨?_, ?_, ?_⟩
  · unfold search_clinical_trials_by_NCT
    rw [hN]
    rfl
  · have hnb : ¬ (max_studies > 1000 ∨ max_studies < 1) := by omega
    have hall : (requested_csv_fields.all
        (fun f => _valid_csv_column_names.contains f)) = true := by decide
    unfold search_clinical_trials_by_keyword search_by_keyword_pre
    rw [if_neg hnb, hall]
    simp only [Bool.not_true, Bool.false_eq_true, if_false]
    rw [hK]
    rfl
  · unfold search_clinical_trials_by_NCT
    rw [hM]
    simp only [List.headD_cons, List.tail_cons, List.length_cons]
    rw [if_pos (by omega : rows.length + 1 > 1),
      if_neg (not_or.mpr ⟨hrows, hhdr⟩), if_neg hcolM]
    rfl

/-- C2 witness: a connection-failure text surfaces in both operations'
returned strings, and a header without `"NCT Number"` surfaces as the
`KeyError` text, all at concrete inputs. -/
theorem C2_exception_boundary_witness :
    search_clinical_trials_by_NCT renderLen "NCT1"
        (constFetch (Except.error "boom")) =
      "Error fetching study details for NCT ID " ++ "NCT1" ++ ": " ++ "boom"
    ∧ search_clinical_trials_by_keyword renderLen "flu" 20
        (constFetch (Except.error "boom")) =
      "Error searching studies by keyword '" ++ "flu" ++ "': " ++ "boom"
    ∧ search_clinical_trials_by_NCT renderLen "NCT1"
        (constFetch (Except.ok [["X"], ["r"]])) =
      "Error fetching study details for NCT ID " ++ "NCT1" ++ ": "
        ++ "'NCT Number'" :=
  C2_exception_boundary renderLen "NCT1" "flu" "boom" 20
    (constFetch (Except.error "boom")) (constFetch (Except.error "boom"))
    (constFetch (Except.ok [["X"], ["r"]])) rfl (by decide) (by decide) rfl
    ["X"] [["r"]] rfl (by decide) (by decide) (by decide) (by decide)
